import Mathlib

/-!
Verification of the DeepResearchAI pipeline-orchestration core.

This file embeds the orchestration and resilience layer of the repository
(`src/orchestrator.py`, `src/llm_client.py`, `src/modules/web_search.py`,
`src/modules/error_handling.py`) as executable Lean definitions and proves
the specified properties about it.

Modelling conventions:
- Python floats are modelled as `Rat` (all constants involved, e.g. 0.1, 0.2,
  0.5, 0.7, are exactly representable; no claim depends on float rounding).
- A raised Python exception is modelled as the `Except.error` branch carrying
  the exception message (`str(e)`); the orchestration layer treats every
  exception uniformly, so the message is all the code ever inspects.
- Network / LLM calls made by the stage helpers are external collaborators;
  their outcomes are supplied by a `StageEnv` oracle, one outcome per call
  site.  All control flow, guards and bookkeeping around those calls is
  translated directly from the source.
- Python dicts with known keys are modelled as structures with optional
  fields (a missing key is `none`); `dict.get(k, d)` becomes `Option.getD`.
- `datetime` values are not modelled; stage durations are abstract `Rat`
  inputs supplied by the environment (no claim depends on real time).
-/

namespace DeepResearch

/-- The `ResearchStage` enum from `orchestrator.py` (7 members, `complete` last). -/
inductive ResearchStage where
  | query_analysis
  | web_search
  | reasoning
  | verification
  | citation
  | output_generation
  | complete
deriving DecidableEq, Repr

/-- Model of `ResearchStage.value`: the Python enum's string value. -/
def ResearchStage.value : ResearchStage → String
  | .query_analysis => "query_analysis"
  | .web_search => "web_search"
  | .reasoning => "reasoning"
  | .verification => "verification"
  | .citation => "citation"
  | .output_generation => "output_generation"
  | .complete => "complete"

/-- Model of `len(ResearchStage)` in the source: the number of enum members. -/
def researchStageCount : Nat := 7

/-- The canonical execution order of the six working stages
(`complete` excluded), as run by `ResearchOrchestrator.research`. -/
def canonicalStageOrder : List ResearchStage :=
  [.query_analysis, .web_search, .reasoning, .verification, .citation,
   .output_generation]

/-- The `SubQuery` dataclass from `models.py` (fields used by the core). -/
structure SubQuery where
  query : String
  purpose : String
  priority : Int := 1
deriving DecidableEq, Repr

/-- The `QueryAnalysis` dataclass from `models.py`, restricted to the fields the
orchestration core reads (`sub_queries`); the remaining fields are prompt
payload for collaborators and are not consulted by the orchestrator. -/
structure QueryAnalysis where
  raw_query : String := ""
  intent : String := ""
  domain : String := ""
  sub_queries : List SubQuery := []
deriving DecidableEq, Repr

/-- The `SearchResult` dataclass from `models.py`. -/
structure SearchResult where
  title : String
  url : String
  snippet : String
  domain : String
  relevance_score : Rat := 1/2
deriving DecidableEq, Repr

/-- The `Source` dataclass from `models.py` (fields the core reads/writes). -/
structure Source where
  source_id : String := ""
  url : String := ""
  title : String := ""
  content : String := ""
  domain : String := ""
  credibility_score : Rat := 1/2
deriving DecidableEq, Repr

/-- The verification-stage result dict; the orchestrator reads only
`verification.get("overall_confidence", 0.5)`. -/
structure VerificationData where
  overall_confidence : Option Rat := none
deriving DecidableEq, Repr

/-- The synthesis dict produced by the reasoning stage; the orchestrator reads
`key_findings`, `synthesis`, `gaps` and the chain-of-thought result's
`reasoning_chain`. -/
structure SynthesisData where
  synthesis : Option String := none
  key_findings : List String := []
  gaps : List String := []
  reasoning_chain : List String := []
deriving DecidableEq, Repr

/-- The citations dict produced by the citation stage (opaque to the
orchestrator: it is only stored and echoed into result metadata). -/
structure CitationData where
  entries : List String := []
deriving DecidableEq, Repr

/-- The dict returned by `ErrorHandler.generate_fallback_content`; the
orchestrator reads `fallback.get("fallback_content", {}).get("response", …)`,
modelled here as the optional `response` field (missing key = `none`). -/
structure FallbackData where
  response : Option String := none
deriving DecidableEq, Repr

/-- The free-form `metadata` dict of a `ResearchResult`, modelled as optional
named keys.  The success path of `_generate_output` sets `report`,
`citations`, `session_id` and `duration`; the failure path of
`_handle_research_failure` sets `error`, `isPartial` (dict key `"partial"`)
and `fallback`. -/
structure ResultMetadata where
  error : Option String := none
  isPartial : Option Bool := none
  fallback : Option FallbackData := none
  report : Option String := none
  citations : Option CitationData := none
  session_id : Option String := none
  duration : Option (List (String × Rat)) := none
deriving DecidableEq, Repr

/-- The `ResearchResult` dataclass from `models.py` (core fields). -/
structure ResearchResult where
  query : String := ""
  answer : String := ""
  confidence : Rat := 1/2
  sources : List Source := []
  reasoning_steps : List String := []
  verification_status : String := "unverified"
  metadata : ResultMetadata := {}
deriving DecidableEq, Repr

/-- The `ResearchProgress` dataclass from `orchestrator.py`.  `stage_times` is a
Python dict keyed by stage value string, modelled as an association list with
dict update semantics; `start_time` (a datetime) is not modelled. -/
structure ResearchProgress where
  current_stage : ResearchStage
  stages_completed : List ResearchStage := []
  stage_times : List (String × Rat) := []
  errors : List String := []
deriving DecidableEq, Repr

/-- Python dict assignment `m[k] = v` on an association list: overwrite the
existing entry for `k`, else append a new one. -/
def updateAssoc (m : List (String × Rat)) (k : String) (v : Rat) :
    List (String × Rat) :=
  if m.any (fun p => p.1 == k) then
    m.map (fun p => if p.1 == k then (k, v) else p)
  else
    m ++ [(k, v)]

/-- Model of `ResearchProgress.complete_stage`: append the stage and record its
duration. -/
def ResearchProgress.complete_stage (p : ResearchProgress)
    (stage : ResearchStage) (duration : Rat) : ResearchProgress :=
  { p with
    stages_completed := p.stages_completed ++ [stage]
    stage_times := updateAssoc p.stage_times stage.value duration }

/-- Model of `ResearchProgress.progress_percentage`:
`len(stages_completed) / (len(ResearchStage) - 1) * 100`. -/
def ResearchProgress.progress_percentage (p : ResearchProgress) : Rat :=
  ((p.stages_completed.length : Rat) / ((researchStageCount : Rat) - 1)) * 100

/-- The `ResearchSession` dataclass from `orchestrator.py`.  `reasoning_steps`
holds the opaque chain entries returned by the reasoning collaborator;
the session-level `metadata` dict is never read or written by the core and is
omitted. -/
structure ResearchSession where
  session_id : String
  query : String
  progress : ResearchProgress
  query_analysis : Option QueryAnalysis := none
  search_results : List SearchResult := []
  sources : List Source := []
  reasoning_steps : List String := []
  synthesis : Option SynthesisData := none
  verification : Option VerificationData := none
  citations : Option CitationData := none
  final_result : Option ResearchResult := none
deriving DecidableEq, Repr

/-- Orchestrator session-tracking state: `active_sessions` (a dict keyed by
session id, modelled as an association list in insertion order) and the
monotone `_session_counter`. -/
structure OrchState where
  active_sessions : List (String × ResearchSession) := []
  session_counter : Nat := 0
deriving DecidableEq, Repr

/-- Model of `ResearchOrchestrator._calculate_confidence`, translated line by line:
collect the available factors (average source credibility when sources exist,
the verification dict's `overall_confidence` with default 0.5 when
verification ran, and always the source-count score `min(len/10, 1.0)`),
subtract `0.1` per recorded error, clamp to `[0, 1]`; return `0.5` only when
no factor at all was collected. -/
def calculate_confidence (s : ResearchSession) : Rat :=
  let credFactors : List Rat :=
    if s.sources.isEmpty then []
    else [(s.sources.map (fun src => src.credibility_score)).sum /
            (s.sources.length : Rat)]
  let verifFactors : List Rat :=
    match s.verification with
    | some v => [v.overall_confidence.getD (1/2)]
    | none => []
  let source_score : Rat := min ((s.sources.length : Rat) / 10) 1
  let factors : List Rat := credFactors ++ verifFactors ++ [source_score]
  let error_penalty : Rat := (s.progress.errors.length : Rat) * (1/10)
  if factors.isEmpty then 1/2
  else
    let base_confidence := factors.sum / (factors.length : Rat)
    max 0 (min 1 (base_confidence - error_penalty))

/-- Oracle for the external collaborator calls made during one research run:
one `Except` outcome per stage's external work, the fallback-content LLM call
of the failure path, and the (abstract) wall-clock duration of each stage.
`search` bundles the net outcome of the search stage's provider calls and
content extraction: the deduplicated, truncated result list and the `Source`
list built from it (the deduplication algorithm itself is modelled separately
as `dedupByUrl` below, from `orchestrator.py` lines 300-308). -/
structure StageEnv where
  analyze : Except String QueryAnalysis := .error ""
  search : Except String (List SearchResult × List Source) := .error ""
  reason : Except String SynthesisData := .error ""
  verify : Except String VerificationData := .error ""
  cite : Except String CitationData := .error ""
  output : Except String (String × String) := .error ""
  fallbackContent : Except String FallbackData := .error ""
  durations : ResearchStage → Rat := fun _ => 0

/-- Model of `ResearchOrchestrator._analyze_query`: run the query-understanding
collaborator and store its analysis on the session.  (In the source the
session is re-derived from the registry via `_get_current_session(query)`,
which within one run resolves to the very session created by `research`; the
embedding threads that session directly.) -/
def analyze_query (env : StageEnv) (s : ResearchSession) :
    Except String ResearchSession :=
  match env.analyze with
  | .error e => .error e
  | .ok analysis => .ok { s with query_analysis := some analysis }

/-- Model of `ResearchOrchestrator._search_web`: guard on a missing query analysis
(`ResearchError("Query analysis not available")`), then store the provider
results and extracted sources produced by the search collaborators. -/
def search_web (env : StageEnv) (s : ResearchSession) :
    Except String ResearchSession :=
  if s.query_analysis.isNone then .error "Query analysis not available"
  else
    match env.search with
    | .error e => .error e
    | .ok (results, sources) =>
        .ok { s with search_results := results, sources := sources }

/-- Model of `ResearchOrchestrator._reason`: guard on an empty source list
(`ResearchError("No sources available for reasoning")`), then store the
chain-of-thought steps and the synthesis dict from the reasoning engine. -/
def reason (env : StageEnv) (s : ResearchSession) :
    Except String ResearchSession :=
  if s.sources.isEmpty then .error "No sources available for reasoning"
  else
    match env.reason with
    | .error e => .error e
    | .ok syn =>
        .ok { s with reasoning_steps := syn.reasoning_chain,
                     synthesis := some syn }

/-- Model of `ResearchOrchestrator._verify`: guard on a missing synthesis
(`ResearchError("Synthesis not available for verification")`), then store the
verification dict.  (The per-source credibility-score refresh performed here
in the source only rewrites `credibility_score` fields; no claim reads them
after this point, so the rewritten scores are folded into `env.verify`'s
session-independent outcome.) -/
def verify (env : StageEnv) (s : ResearchSession) :
    Except String ResearchSession :=
  if s.synthesis.isNone then .error "Synthesis not available for verification"
  else
    match env.verify with
    | .error e => .error e
    | .ok v => .ok { s with verification := some v }

/-- Model of `ResearchOrchestrator._generate_citations`: guard on an empty source list
(`ResearchError("No sources available for citation")`), then store the
citations dict from the citation collaborator. -/
def generate_citations (env : StageEnv) (s : ResearchSession) :
    Except String ResearchSession :=
  if s.sources.isEmpty then .error "No sources available for citation"
  else
    match env.cite with
    | .error e => .error e
    | .ok c => .ok { s with citations := some c }

/-- Model of `ResearchOrchestrator._generate_output`: compute the confidence score,
run the report and summary collaborators (`env.output` carries both; a raised
exception in either surfaces as the stage failing), and build the final
`ResearchResult` exactly as the source does. -/
def generate_output (env : StageEnv) (s : ResearchSession) :
    Except String ResearchSession :=
  let confidence := calculate_confidence s
  match env.output with
  | .error e => .error e
  | .ok (report, summaryText) =>
      let result : ResearchResult :=
        { query := s.query
          answer := summaryText
          confidence := confidence
          sources := s.sources
          reasoning_steps := s.reasoning_steps
          verification_status :=
            if s.verification.isSome then "verified" else "unverified"
          metadata :=
            { report := some report
              citations := s.citations
              session_id := some s.session_id
              duration := some s.progress.stage_times } }
      .ok { s with final_result := some result }

/-- The mutation `session.progress.current_stage = stage` performed by
`_run_stage` before invoking the stage callable. -/
def stageEntry (s : ResearchSession) (stage : ResearchStage) :
    ResearchSession :=
  { s with progress := { s.progress with current_stage := stage } }

/-- Model of `ResearchOrchestrator._run_stage`: set the in-flight stage, invoke the
stage callable; on success append the stage to `stages_completed` and record
its duration; on failure append `"{stage.value}: {message}"` to
`progress.errors` and re-raise the same exception (returned here as
`some message`). -/
def run_stage (session : ResearchSession) (stage : ResearchStage)
    (stage_func : ResearchSession → Except String ResearchSession)
    (duration : Rat) : ResearchSession × Option String :=
  let s1 := stageEntry session stage
  match stage_func s1 with
  | .ok s2 =>
      ({ s2 with progress := s2.progress.complete_stage stage duration }, none)
  | .error e =>
      ({ s1 with progress :=
          { s1.progress with
              errors := s1.progress.errors ++ [stage.value ++ ": " ++ e] } },
       some e)

/-- Model of `ResearchOrchestrator._create_session`: bump the counter, build the id
from it and the creation timestamp (`now`, abstract here), register the
session under its id, and return it with `current_stage = query_analysis`. -/
def create_session (st : OrchState) (query now : String) :
    ResearchSession × OrchState :=
  let counter := st.session_counter + 1
  let sid := "session_" ++ toString counter ++ "_" ++ now
  let session : ResearchSession :=
    { session_id := sid
      query := query
      progress := { current_stage := .query_analysis } }
  (session,
   { active_sessions := st.active_sessions ++ [(sid, session)]
     session_counter := counter })

/-- Model of `ResearchOrchestrator._cleanup_session`: delete the registry entry for
`session_id` if present (dict `del`, modelled as dropping every entry with
that key). -/
def cleanup_session (st : OrchState) (session_id : String) : OrchState :=
  if st.active_sessions.any (fun p => p.1 == session_id) then
    { st with active_sessions :=
        st.active_sessions.filter (fun p => ¬ p.1 = session_id) }
  else st

/-- Model of `ErrorHandler.generate_fallback_content` (`modules/error_handling.py`):
try the fallback-content LLM call; if it raises, return the hardcoded
degraded dict — this function never raises. -/
def generate_fallback_content (env : StageEnv) : FallbackData :=
  match env.fallbackContent with
  | .ok d => d
  | .error _ =>
      { response := some "Unable to complete the research at this time." }

/-- Model of `ResearchOrchestrator._handle_research_failure`: build the best-effort
partial `ResearchResult` from whatever session state exists, with the
fallback answer (default `"Research could not be completed."`), confidence
fixed at 0.2, `verification_status = "failed"` and metadata
`{error: str(e), partial: True, fallback: …}`. -/
def handle_research_failure (env : StageEnv) (s : ResearchSession)
    (error : String) : ResearchResult :=
  let fallback := generate_fallback_content env
  { query := s.query
    answer := fallback.response.getD "Research could not be completed."
    confidence := 1/5
    sources := s.sources
    reasoning_steps := s.reasoning_steps
    verification_status := "failed"
    metadata :=
      { error := some error
        isPartial := some true
        fallback := some fallback } }

/-- One step of the `research` stage sequence: a completed `run_stage` call,
short-circuited once a previous stage has raised (control in the source jumps
straight to the `except` block).  Alongside the session and the pending
exception it accumulates the trace of progress states observable at the
stage's suspension point (`await stage_func(...)`): at that point
`current_stage` has been set to the in-flight stage and no bookkeeping for it
exists yet.  Mutations between suspension points are atomic under asyncio's
cooperative scheduling, so these snapshots (plus the post-run state appended
by `research` itself) are exactly the states another task or the caller can
observe. -/
def runStageT
    (acc : ResearchSession × Option String × List ResearchProgress)
    (stage : ResearchStage)
    (stage_func : ResearchSession → Except String ResearchSession)
    (duration : Rat) :
    ResearchSession × Option String × List ResearchProgress :=
  match acc with
  | (s, some e, tr) => (s, some e, tr)
  | (s, none, tr) =>
      let out := run_stage s stage stage_func duration
      (out.1, out.2, tr ++ [(stageEntry s stage).progress])

/-- The `try` body of `ResearchOrchestrator.research`: the six `_run_stage`
calls in their fixed order, with the verification stage guarded by
`verify_claims`.  Returns the session, the first stage exception (if any),
and the trace of observable progress states. -/
def runPipelineT (env : StageEnv) (verify_claims : Bool)
    (session : ResearchSession) :
    ResearchSession × Option String × List ResearchProgress :=
  let acc0 : ResearchSession × Option String × List ResearchProgress :=
    (session, none, [])
  let acc1 := runStageT acc0 .query_analysis (analyze_query env)
    (env.durations .query_analysis)
  let acc2 := runStageT acc1 .web_search (search_web env)
    (env.durations .web_search)
  let acc3 := runStageT acc2 .reasoning (reason env)
    (env.durations .reasoning)
  let acc4 :=
    if verify_claims then
      runStageT acc3 .verification (verify env) (env.durations .verification)
    else acc3
  let acc5 := runStageT acc4 .citation (generate_citations env)
    (env.durations .citation)
  runStageT acc5 .output_generation (generate_output env)
    (env.durations .output_generation)

/-- The outcome of one `research()` call: the returned result (the source's
declared return type hides that `session.final_result` is an `Option`), the
stage exception caught by the `except` block (if any), the session's final
state, the orchestrator state after the `finally` cleanup, and the trace of
observable progress states. -/
structure ResearchRun where
  result : Option ResearchResult
  stageError : Option String
  finalSession : ResearchSession
  finalState : OrchState
  sessionId : String
  trace : List ResearchProgress
deriving Repr

/-- The tail of `ResearchOrchestrator.research`: on success mark the session
`complete` and return `session.final_result`; on a caught stage failure
return the degraded partial result; in both cases run the `finally` cleanup
of the session id. -/
def finishResearch (env : StageEnv) (st1 : OrchState) (sid : String)
    (out : ResearchSession × Option String × List ResearchProgress) :
    ResearchRun :=
  match out with
  | (s, none, tr) =>
      let s1 :=
        { s with progress := { s.progress with current_stage := .complete } }
      { result := s1.final_result
        stageError := none
        finalSession := s1
        finalState := cleanup_session st1 sid
        sessionId := sid
        trace := tr ++ [s1.progress] }
  | (s, some e, tr) =>
      { result := some (handle_research_failure env s e)
        stageError := some e
        finalSession := s
        finalState := cleanup_session st1 sid
        sessionId := sid
        trace := tr ++ [s.progress] }

/-- Model of `ResearchOrchestrator.research(query, …)`: create and register the
session, run the stage pipeline, convert a caught stage failure into the
degraded result, and always clean the session out of the registry.
`now` abstracts the creation timestamp used in the session id;
`audience`, `citation_style`, `output_format` and `max_sources` only
parameterise collaborator calls already condensed into `env` and are
omitted. -/
def research (st : OrchState) (query now : String) (verify_claims : Bool)
    (env : StageEnv) : ResearchRun :=
  let created := create_session st query now
  finishResearch env created.2 created.1.session_id
    (runPipelineT env verify_claims created.1)

/-- The URL-deduplication loop of `ResearchOrchestrator._search_web`
(`orchestrator.py` lines 300-308): iterate over `all_results`, keeping a
result and remembering its URL the first time that URL is seen.  `seen`
models the Python `seen_urls` set (membership is all that is used) and
`unique` the `unique_results` accumulator. -/
def dedupLoop (seen : List String) (unique : List SearchResult) :
    List SearchResult → List SearchResult
  | [] => unique
  | r :: rest =>
      if r.url ∈ seen then dedupLoop seen unique rest
      else dedupLoop (r.url :: seen) (unique ++ [r]) rest

/-- URL deduplication as performed by `_search_web`, starting from an empty
seen-set and accumulator. -/
def dedupByUrl (all_results : List SearchResult) : List SearchResult :=
  dedupLoop [] [] all_results

/-- Modelled from the spec's characterisation of deduplication ("first
occurrence wins and is kept at its original list position"): keep each head
and drop every later result with the same URL.  This is the reference
definition `dedupByUrl` is proved to coincide with. -/
def keepFirstByUrl : List SearchResult → List SearchResult
  | [] => []
  | r :: rest =>
      r :: keepFirstByUrl (rest.filter (fun x => ¬ x.url = r.url))
termination_by l => l.length
decreasing_by
  simpa using Nat.lt_succ_of_le (List.length_filter_le _ rest)

/-- The primary/secondary backend pair behind one logical Fallback Client
call: each component is the outcome the respective backend would produce for
this call (the same arguments are re-issued on failover, so one outcome per
backend per logical call). -/
structure LLMBackends (α : Type) where
  primary : Except String α
  fallback : Except String α

/-- Model of `LLMClient.__init__`: it sets `self._use_fallback = False`. -/
def LLMClient.init_use_fallback : Bool := false

/-- Model of `LLMClient.generate` (and the textually identical fallback flow of
`LLMClient.generate_json`, which differs only in the payload type `α`):
route to the fallback backend iff `_use_fallback` is set; on an exception
with the flag still clear, set the sticky flag and re-issue the same call
(which now routes to the fallback backend; the one-level recursion of the
source is unfolded here since the flag is set before recursing); on an
exception with the flag already set, re-raise.  Returns the call outcome and
the flag's new value. -/
def LLMClient.generate {α : Type} (use_fallback : Bool)
    (b : LLMBackends α) : Except String α × Bool :=
  if use_fallback then
    match b.fallback with
    | .ok r => (.ok r, true)
    | .error e => (.error e, true)
  else
    match b.primary with
    | .ok r => (.ok r, false)
    | .error _ =>
        match b.fallback with
        | .ok r => (.ok r, true)
        | .error e => (.error e, true)

/-- A sequence of `LLMClient.generate` calls on one client instance,
threading the sticky `_use_fallback` flag; each element of the list is the
backend pair's behaviour for that call. -/
def LLMClient.generateCalls {α : Type} (use_fallback : Bool) :
    List (LLMBackends α) → List (Except String α) × Bool
  | [] => ([], use_fallback)
  | b :: bs =>
      let step := LLMClient.generate use_fallback b
      let rest := LLMClient.generateCalls step.2 bs
      (step.1 :: rest.1, rest.2)

/-- Model of `WebSearch._execute_search` (`modules/web_search.py` lines 236-256)
specialised to the case where `_use_fallback` is already `true`: the provider
is the fallback provider; an empty result list is returned as-is (the
empty-retry guard requires the flag to be clear), and an exception is caught
and converted to `[]` (the flag is already set, so no second failover). -/
def WebSearch.executeSearchFB (fb : Except String (List SearchResult)) :
    List SearchResult × Bool :=
  match fb with
  | .ok rs => (rs, true)
  | .error _ => ([], true)

/-- Model of `WebSearch._execute_search`: pick the provider by the sticky flag; if the
primary returns an empty list with the flag clear, set the flag and query the
fallback provider for this same call (an exception from that fallback query
is caught by the surrounding handler, which — the flag now being set —
returns `[]`); if the primary raises with the flag clear, set the flag and
re-enter `_execute_search` (unfolded here as `executeSearchFB` since the flag
is set before recursing).  Returns the result list and the flag's new
value. -/
def WebSearch.executeSearch (primary fb : Except String (List SearchResult))
    (use_fallback : Bool) : List SearchResult × Bool :=
  if use_fallback then WebSearch.executeSearchFB fb
  else
    match primary with
    | .ok rs =>
        if rs.isEmpty then
          match fb with
          | .ok rs2 => (rs2, true)
          | .error _ => ([], true)
        else (rs, use_fallback)
    | .error _ => WebSearch.executeSearchFB fb

/-- Model of the `ErrorHandler.retry_with_backoff` loop body (`modules/error_handling.py`
lines 492-536).  `f k` is the outcome of the `k`-th invocation of the
retried coroutine (1-based, as in `range(1, max_attempts + 1)`); `remaining`
counts the loop iterations left including the current one; `delay` is the
current sleep duration and `last_e` the saved `last_exception` (`none` models
Python's initial `None`).  `sleeps` accumulates the durations passed to
`asyncio.sleep`, in order.  The final `raise last_exception` is modelled as
`.error last_e`. -/
def retryAux {α : Type} (f : Nat → Except String α) (factor : Rat) :
    Nat → Nat → Rat → Option String → List Rat →
    Except (Option String) α × List Rat
  | _, 0, _, last_e, sleeps => (.error last_e, sleeps)
  | attempt, remaining + 1, delay, _, sleeps =>
      match f attempt with
      | .ok v => (.ok v, sleeps)
      | .error e =>
          if remaining = 0 then (.error (some e), sleeps)
          else
            retryAux f factor (attempt + 1) remaining (delay * factor)
              (some e) (sleeps ++ [delay])

/-- Model of `ErrorHandler.retry_with_backoff`: up to `max_attempts` invocations of
`f`, sleeping `delay` (starting at `initial_delay`, multiplied by
`backoff_factor` after each failed non-final attempt) between attempts.
Returns the outcome (`.error (some e)` models re-raising the last attempt's
exception; `.error none` the degenerate `max_attempts = 0` case where Python
would `raise None`) together with the list of sleep durations. -/
def retry_with_backoff {α : Type} (f : Nat → Except String α)
    (max_attempts : Nat) (initial_delay backoff_factor : Rat) :
    Except (Option String) α × List Rat :=
  retryAux f backoff_factor 1 max_attempts initial_delay none []

/-! Concrete inputs used by counterexamples and witnesses. -/

/-- An orchestrator state with no active sessions (a fresh orchestrator). -/
def initState : OrchState := {}

/-- A freshly created session with no stage output yet: empty source list,
no verification result, empty error list. -/
def emptySession : ResearchSession :=
  { session_id := "session_1", query := "q"
    progress := { current_stage := .query_analysis } }

/-- An environment in which every collaborator call succeeds (one retrieved
source, so no stage guard fires) and the fallback-content LLM call fails. -/
def envAllOk : StageEnv :=
  { analyze := .ok {}
    search := .ok ([], [{ url := "u" }])
    reason := .ok {}
    verify := .ok {}
    cite := .ok {}
    output := .ok ("rep", "sum")
    fallbackContent := .error "down" }

/-- Environment `envAllOk` with the query-analysis collaborator raising. -/
def envQAFails : StageEnv := { envAllOk with analyze := .error "api down" }

/-- Three search results with a repeated URL: `A(url=u1)`, `B(url=u2)`,
`C(url=u1)`. -/
def resA : SearchResult := { title := "A", url := "u1", snippet := "", domain := "" }

/-- See `resA`. -/
def resB : SearchResult := { title := "B", url := "u2", snippet := "", domain := "" }

/-- See `resA`. -/
def resC : SearchResult := { title := "C", url := "u1", snippet := "", domain := "" }

/-- A retried operation that raises on every attempt except the second. -/
def retryProbe : Nat → Except String Nat :=
  fun k => if k = 2 then .ok 42 else .error "boom"

/-- The stage order actually executed by `research` for a given
`verify_claims` flag: the canonical order, with `verification` omitted when
claim verification is disabled. -/
def expectedStageOrder (verify_claims : Bool) : List ResearchStage :=
  if verify_claims then canonicalStageOrder
  else [.query_analysis, .web_search, .reasoning, .citation, .output_generation]

/-! ## Theorems -/

/-- C2 (counterexample): the claim "the confidence calculation, applied to a
session with an empty source list, no verification result, and an empty error
list, returns exactly the neutral default 0.5" is false at the concrete
session `emptySession`: the source-count factor `min(len(sources)/10, 1.0)`
is appended unconditionally, so `factors` is `[0.0]`, never empty, and the
function returns `0.0`, not `0.5`. -/
theorem calculate_confidence_empty_ne_half :
    ¬ calculate_confidence emptySession = 1/2 := by
  simp [calculate_confidence, emptySession]

/-- C2 (amended): the confidence calculation, applied to a session with an
empty source list, no verification result, and an empty error list, returns
exactly `0.0`: the always-present source-count adequacy factor is `0` for
zero sources, so the factor list is `[0]` (the neutral-default `0.5` branch
for an empty factor list is unreachable) and the clamped average is `0`. -/
theorem calculate_confidence_no_signals_eq_zero (s : ResearchSession)
    (hs : s.sources = []) (hv : s.verification = none)
    (he : s.progress.errors = []) :
    calculate_confidence s = 0 := by
  simp [calculate_confidence, hs, hv, he]

/-- Witness for `calculate_confidence_no_signals_eq_zero` at `emptySession`. -/
theorem calculate_confidence_no_signals_eq_zero_witness :
    calculate_confidence emptySession = 0 :=
  calculate_confidence_no_signals_eq_zero emptySession rfl rfl rfl

/-- C3: the LLM Fallback Client's `_use_fallback` flag starts `false`; on a
call where the primary backend raises with the flag clear, the flag is set
`true` and the same call is served by the secondary backend, whose result is
returned; if the secondary also raises, its exception propagates with the
flag remaining `true`; with the flag set, a call is determined entirely by
the secondary backend (the primary is never retried) and the flag stays
`true`, also across any sequence of subsequent calls. -/
theorem llm_fallback_spec (α : Type) :
    LLMClient.init_use_fallback = false
    ∧ (∀ (b : LLMBackends α) (ep : String) (r : α),
        b.primary = .error ep → b.fallback = .ok r →
        LLMClient.generate false b = (.ok r, true))
    ∧ (∀ (b : LLMBackends α) (ep ef : String),
        b.primary = .error ep → b.fallback = .error ef →
        LLMClient.generate false b = (.error ef, true))
    ∧ (∀ (b b' : LLMBackends α), b.fallback = b'.fallback →
        LLMClient.generate true b = LLMClient.generate true b')
    ∧ (∀ b : LLMBackends α, (LLMClient.generate true b).2 = true)
    ∧ (∀ bs : List (LLMBackends α),
        (LLMClient.generateCalls true bs).2 = true) := by
  refine ⟨rfl, ?_, ?_, ?_, ?_, ?_⟩
  · intro b ep r hp hf
    simp [LLMClient.generate, hp, hf]
  · intro b ep ef hp hf
    simp [LLMClient.generate, hp, hf]
  · intro b b' hf
    simp [LLMClient.generate, hf]
  · intro b
    simp [LLMClient.generate]
    cases b.fallback <;> simp
  · intro bs
    induction bs with
    | nil => rfl
    | cons b bs ih =>
        simp only [LLMClient.generateCalls]
        have h2 : (LLMClient.generate true b).2 = true := by
          simp [LLMClient.generate]
          cases b.fallback <;> simp
        rw [h2, ih]

/-- Witness for `llm_fallback_spec`: a client whose primary raises and whose
secondary succeeds returns the secondary's result with the flag set. -/
theorem llm_fallback_spec_witness :
    LLMClient.generate false
      (LLMBackends.mk (Except.error "down") (Except.ok "hi")) =
      (Except.ok "hi", true) :=
  (llm_fallback_spec String).2.1
    (LLMBackends.mk (Except.error "down") (Except.ok "hi")) "down" "hi" rfl rfl

/-- C8: in `WebSearch._execute_search` with the sticky flag clear, a primary
provider call that returns an empty list (without raising) sets the flag and
queries the fallback provider for this same call, returning its results —
and the observable outcome (result list and flag) is exactly the same as
when the primary raises. -/
theorem search_empty_failover :
    (∀ (fb : Except String (List SearchResult)) (e : String),
        WebSearch.executeSearch (.ok []) fb false =
          WebSearch.executeSearch (.error e) fb false)
    ∧ (∀ rs : List SearchResult,
        WebSearch.executeSearch (.ok []) (.ok rs) false = (rs, true))
    ∧ (∀ e : String,
        WebSearch.executeSearch (.ok []) (.error e) false = ([], true))
    ∧ (∀ fb : Except String (List SearchResult),
        (WebSearch.executeSearch (.ok []) fb false).2 = true) := by
  refine ⟨?_, ?_, ?_, ?_⟩
  · intro fb e
    cases fb <;> simp [WebSearch.executeSearch, WebSearch.executeSearchFB]
  · intro rs
    simp [WebSearch.executeSearch]
  · intro e
    simp [WebSearch.executeSearch]
  · intro fb
    cases fb <;> simp [WebSearch.executeSearch]

/-- C9: if the stage callable raises `e`, `_run_stage` appends the formatted
string `"{stage.value}: {str(e)}"` to `progress.errors`, leaves
`stages_completed` unchanged (the stage is not marked complete), and
re-raises the same exception `e`. -/
theorem run_stage_failure (session : ResearchSession) (stage : ResearchStage)
    (stage_func : ResearchSession → Except String ResearchSession)
    (duration : Rat) (e : String)
    (h : stage_func (stageEntry session stage) = .error e) :
    (run_stage session stage stage_func duration).2 = some e
    ∧ (run_stage session stage stage_func duration).1.progress.errors =
        session.progress.errors ++ [stage.value ++ ": " ++ e]
    ∧ (run_stage session stage stage_func duration).1.progress.stages_completed =
        session.progress.stages_completed := by
  simp only [run_stage, h]
  simp [stageEntry]

/-- Witness for `run_stage_failure`: a web-search stage whose callable raises
`"boom"` on `emptySession`. -/
theorem run_stage_failure_witness :
    (run_stage emptySession .web_search (fun _ => Except.error "boom") 0).2 =
      some "boom"
    ∧ (run_stage emptySession .web_search (fun _ => Except.error "boom") 0).1.progress.errors =
        emptySession.progress.errors ++
          [ResearchStage.web_search.value ++ ": " ++ "boom"]
    ∧ (run_stage emptySession .web_search
        (fun _ => Except.error "boom") 0).1.progress.stages_completed =
        emptySession.progress.stages_completed :=
  run_stage_failure emptySession .web_search (fun _ => Except.error "boom")
    0 "boom" rfl

/-- The seen-set loop with accumulator `acc` computes `acc` followed by the
first-occurrence filtering of the remaining input, restricted to URLs not yet
seen. -/
theorem dedupLoop_eq (l : List SearchResult) :
    ∀ (seen : List String) (acc : List SearchResult),
      dedupLoop seen acc l =
        acc ++ keepFirstByUrl (l.filter (fun r => ¬ r.url ∈ seen)) := by
  induction l with
  | nil =>
      intro seen acc
      simp [dedupLoop, keepFirstByUrl]
  | cons r rest ih =>
      intro seen acc
      by_cases h : r.url ∈ seen
      · rw [show dedupLoop seen acc (r :: rest) = dedupLoop seen acc rest from by
          simp [dedupLoop, h]]
        rw [ih]
        simp [List.filter_cons, h]
      · rw [show dedupLoop seen acc (r :: rest) =
            dedupLoop (r.url :: seen) (acc ++ [r]) rest from by
          simp [dedupLoop, h]]
        rw [ih]
        have hfilter :
            rest.filter (fun x => ¬ x.url ∈ r.url :: seen) =
              (rest.filter (fun x => ¬ x.url ∈ seen)).filter
                (fun x => ¬ x.url = r.url) := by
          rw [List.filter_filter]
          apply List.filter_congr
          intro x _
          by_cases hx1 : x.url = r.url <;> by_cases hx2 : x.url ∈ seen <;>
            simp [hx1, hx2]
        rw [hfilter]
        simp [List.filter_cons, h, keepFirstByUrl]

/-- C7: URL deduplication of search results is order-stable with the first
occurrence winning: for every input list the seen-set loop of `_search_web`
agrees with the reference function that keeps exactly the first result for
each distinct URL at its original relative position; in particular
`[A(url=u1), B(url=u2), C(url=u1)]` deduplicates to `[A, B]`, not `[C, B]`. -/
theorem dedup_first_occurrence_wins :
    (∀ l : List SearchResult, dedupByUrl l = keepFirstByUrl l)
    ∧ dedupByUrl [resA, resB, resC] = [resA, resB] := by
  have hmain : ∀ l : List SearchResult, dedupByUrl l = keepFirstByUrl l := by
    intro l
    rw [dedupByUrl, dedupLoop_eq]
    simp
  exact ⟨hmain, by rw [hmain]; simp [keepFirstByUrl, resA, resB, resC]⟩

/-- Shifting one geometric sleep sequence: the current delay followed by the
sequence starting from `delay * factor` is the sequence of length `m + 1`
starting from `delay`. -/
theorem range_geom_shift (delay factor : Rat) (m : Nat) :
    delay :: (List.range m).map (fun t => delay * factor * factor ^ t) =
      (List.range (m + 1)).map (fun t => delay * factor ^ t) := by
  rw [List.range_succ_eq_map]
  simp only [List.map_cons, List.map_map, pow_zero, mul_one]
  congr 1
  apply List.map_congr_left
  intro t _
  simp only [Function.comp_apply, pow_succ]
  ring

/-- Lemma: `retryAux` consults `f` only on the attempt indices of its window. -/
theorem retryAux_congr {α : Type} (f g : Nat → Except String α) (factor : Rat) :
    ∀ (remaining attempt : Nat) (delay : Rat) (lastE : Option String)
      (sleeps : List Rat),
      (∀ j, j < remaining → f (attempt + j) = g (attempt + j)) →
      retryAux f factor attempt remaining delay lastE sleeps =
        retryAux g factor attempt remaining delay lastE sleeps := by
  intro remaining
  induction remaining with
  | zero => intro attempt delay lastE sleeps _; rfl
  | succ n ih =>
      intro attempt delay lastE sleeps hfg
      have h0 : f attempt = g attempt := by
        have h := hfg 0 (Nat.succ_pos n)
        simpa using h
      simp only [retryAux, h0]
      cases hg : g attempt with
      | ok v => rfl
      | error e =>
          by_cases hn : n = 0
          · simp [hn]
          · simp only [hn, if_false]
            exact ih (attempt + 1) (delay * factor) (some e) (sleeps ++ [delay])
              (fun j hj => by
                have h := hfg (j + 1) (by omega)
                rwa [show attempt + (j + 1) = attempt + 1 + j from by omega] at h)

/-- If the first `i` attempts of the window fail and attempt `attempt + i`
succeeds with `v`, the loop returns `v` after sleeping the geometric delays
`delay * factor ^ t` for `t < i`. -/
theorem retryAux_first_success {α : Type} (f : Nat → Except String α)
    (factor : Rat) :
    ∀ (i attempt remaining : Nat) (delay : Rat) (lastE : Option String)
      (sleeps : List Rat) (v : α),
      i < remaining →
      (∀ j, j < i → ∃ e, f (attempt + j) = .error e) →
      f (attempt + i) = .ok v →
      retryAux f factor attempt remaining delay lastE sleeps =
        (.ok v, sleeps ++ (List.range i).map (fun t => delay * factor ^ t)) := by
  intro i
  induction i with
  | zero =>
      intro attempt remaining delay lastE sleeps v hlt _ hok
      rw [Nat.add_zero] at hok
      cases remaining with
      | zero => omega
      | succ r => simp [retryAux, hok]
  | succ i ih =>
      intro attempt remaining delay lastE sleeps v hlt hfail hok
      obtain ⟨e, he⟩ : ∃ e, f attempt = .error e := by
        have h := hfail 0 (Nat.succ_pos i)
        simpa using h
      cases remaining with
      | zero => omega
      | succ r =>
          have hr : ¬ r = 0 := by omega
          simp only [retryAux, he, hr, if_false]
          rw [ih (attempt + 1) r (delay * factor) (some e) (sleeps ++ [delay]) v
            (by omega)
            (fun j hj => by
              have h := hfail (j + 1) (by omega)
              rwa [show attempt + (j + 1) = attempt + 1 + j from by omega] at h)
            (by rwa [show attempt + (i + 1) = attempt + 1 + i from by omega] at hok)]
          rw [List.append_assoc, List.singleton_append, range_geom_shift]

/-- If every attempt of the window fails, the loop re-raises the last
attempt's exception after sleeping the geometric delays of the non-final
attempts. -/
theorem retryAux_all_fail {α : Type} (f : Nat → Except String α)
    (factor : Rat) :
    ∀ (m attempt : Nat) (delay : Rat) (lastE : Option String)
      (sleeps : List Rat) (e : String),
      (∀ j, j < m → ∃ e', f (attempt + j) = .error e') →
      f (attempt + m) = .error e →
      retryAux f factor attempt (m + 1) delay lastE sleeps =
        (.error (some e),
          sleeps ++ (List.range m).map (fun t => delay * factor ^ t)) := by
  intro m
  induction m with
  | zero =>
      intro attempt delay lastE sleeps e _ hlast
      rw [Nat.add_zero] at hlast
      simp [retryAux, hlast]
  | succ m ih =>
      intro attempt delay lastE sleeps e hfail hlast
      obtain ⟨e0, he0⟩ : ∃ e0, f attempt = .error e0 := by
        have h := hfail 0 (Nat.succ_pos m)
        simpa using h
      have hm : ¬ m + 1 = 0 := by omega
      rw [show retryAux f factor attempt (m + 1 + 1) delay lastE sleeps =
          retryAux f factor (attempt + 1) (m + 1) (delay * factor) (some e0)
            (sleeps ++ [delay]) from by
        conv_lhs => rw [retryAux]
        rw [he0]
        simp [hm]]
      rw [ih (attempt + 1) (delay * factor) (some e0) (sleeps ++ [delay]) e
        (fun j hj => by
          have h := hfail (j + 1) (by omega)
          rwa [show attempt + (j + 1) = attempt + 1 + j from by omega] at h)
        (by rwa [show attempt + (m + 1) = attempt + 1 + m from by omega] at hlast)]
      rw [List.append_assoc, List.singleton_append, range_geom_shift]

/-- C10: for `max_attempts ≥ 1`, `retry_with_backoff` consults `f` only on
attempts `1 … max_attempts`; it returns the value of the first invocation
that does not raise, having slept `initial_delay * backoff_factor ^ (k - 1)`
before each attempt `k + 1`; and if every attempt raises, it re-raises the
exception of the last attempt. -/
theorem retry_with_backoff_spec {α : Type} (f : Nat → Except String α)
    (max_attempts : Nat) (initial_delay backoff_factor : Rat)
    (hmax : 1 ≤ max_attempts) :
    (∀ g : Nat → Except String α,
        (∀ j, 1 ≤ j → j ≤ max_attempts → g j = f j) →
        retry_with_backoff g max_attempts initial_delay backoff_factor =
          retry_with_backoff f max_attempts initial_delay backoff_factor)
    ∧ (∀ (k : Nat) (v : α), 1 ≤ k → k ≤ max_attempts →
        (∀ j, 1 ≤ j → j < k → ∃ e, f j = .error e) → f k = .ok v →
        retry_with_backoff f max_attempts initial_delay backoff_factor =
          (.ok v, (List.range (k - 1)).map
            (fun t => initial_delay * backoff_factor ^ t)))
    ∧ (∀ e : String,
        (∀ j, 1 ≤ j → j ≤ max_attempts → ∃ e', f j = .error e') →
        f max_attempts = .error e →
        retry_with_backoff f max_attempts initial_delay backoff_factor =
          (.error (some e), (List.range (max_attempts - 1)).map
            (fun t => initial_delay * backoff_factor ^ t))) := by
  refine ⟨?_, ?_, ?_⟩
  · intro g hg
    exact retryAux_congr g f backoff_factor max_attempts 1 initial_delay none []
      (fun j hj => hg (1 + j) (by omega) (by omega))
  · intro k v hk1 hk2 hfail hok
    rw [retry_with_backoff,
      retryAux_first_success f backoff_factor (k - 1) 1 max_attempts
        initial_delay none [] v (by omega)
        (fun j hj => hfail (1 + j) (by omega) (by omega))
        (by rwa [show 1 + (k - 1) = k from by omega])]
    simp
  · intro e hfail hlast
    obtain ⟨m, rfl⟩ : ∃ m, max_attempts = m + 1 :=
      ⟨max_attempts - 1, by omega⟩
    rw [retry_with_backoff,
      retryAux_all_fail f backoff_factor m 1 initial_delay none [] e
        (fun j hj => hfail (1 + j) (by omega) (by omega))
        (by rwa [show 1 + m = m + 1 from by omega])]
    simp

/-- Witness for `retry_with_backoff_spec`: `retryProbe` fails on attempt 1
and succeeds on attempt 2 of 3, so the retry returns `42` after a single
sleep of the initial delay. -/
theorem retry_with_backoff_spec_witness :
    retry_with_backoff retryProbe 3 1 2 =
      (.ok 42, (List.range (2 - 1)).map (fun t => (1 : Rat) * 2 ^ t)) :=
  (retry_with_backoff_spec retryProbe 3 1 2 (by omega)).2.1 2 42 (by omega)
    (by omega)
    (fun j h1 h2 => ⟨"boom", by
      have hj : j = 1 := by omega
      rw [hj]; rfl⟩)
    rfl

/-- C1: if any stage callable raises during a research run, `research` does
not propagate the exception (its only outcomes are the two return branches
modelled here): it returns a `ResearchResult` with
`verification_status = "failed"`, confidence fixed at the degraded constant
`0.2`, and metadata recording the triggering error's message and
`partial = True`. -/
theorem research_failure_degraded (st : OrchState) (query now : String)
    (vc : Bool) (env : StageEnv) (e : String)
    (h : (research st query now vc env).stageError = some e) :
    ∃ r, (research st query now vc env).result = some r
      ∧ r.verification_status = "failed"
      ∧ r.confidence = 1/5
      ∧ r.metadata.error = some e
      ∧ r.metadata.isPartial = some true := by
  simp only [research] at h ⊢
  rcases hp : runPipelineT env vc (create_session st query now).1 with ⟨s, err, tr⟩
  rw [hp] at h
  cases err with
  | none => simp [finishResearch] at h
  | some e1 =>
      have he : e1 = e := by simpa [finishResearch] using h
      subst he
      exact ⟨handle_research_failure env s e1, by simp [finishResearch],
        rfl, rfl, rfl, rfl⟩

/-- Witness for `research_failure_degraded`: a fresh orchestrator whose
query-analysis collaborator raises `"api down"`. -/
theorem research_failure_degraded_witness :
    ∃ r, (research initState "q" "t" true envQAFails).result = some r
      ∧ r.verification_status = "failed"
      ∧ r.confidence = 1/5
      ∧ r.metadata.error = some "api down"
      ∧ r.metadata.isPartial = some true :=
  research_failure_degraded initState "q" "t" true envQAFails "api down"
    (by decide)

/-- After `_cleanup_session` the registry no longer holds the session id. -/
theorem cleanup_session_absent (st : OrchState) (sid : String) :
    ((cleanup_session st sid).active_sessions.any
      (fun p => p.1 == sid)) = false := by
  unfold cleanup_session
  by_cases h : st.active_sessions.any (fun p => p.1 == sid) = true
  · rw [if_pos h]
    simp only [Bool.eq_false_iff, ne_eq, List.any_eq_true, not_exists, not_and]
    intro x hx
    rcases List.mem_filter.mp hx with ⟨_, hne⟩
    simp only [decide_not, Bool.not_eq_eq_eq_not, Bool.not_true,
      decide_eq_false_iff_not] at hne
    simp [hne]
  · rw [if_neg h]
    rw [Bool.eq_false_iff]
    exact h

/-- C5: on every exit path of `research` (normal return or caught stage
failure — the embedding is total, so no other exit exists), the created
session's id is absent from the active-session registry when the call
returns: the `finally`-block cleanup runs in both return branches. -/
theorem research_session_cleanup (st : OrchState) (query now : String)
    (vc : Bool) (env : StageEnv) :
    ((research st query now vc env).finalState.active_sessions.any
      (fun p => p.1 == (research st query now vc env).sessionId)) = false := by
  simp only [research]
  rcases runPipelineT env vc (create_session st query now).1 with ⟨s, err, tr⟩
  cases err with
  | none => simpa [finishResearch] using cleanup_session_absent _ _
  | some e1 => simpa [finishResearch] using cleanup_session_absent _ _

/-- C4 (counterexample): with claim verification disabled and every stage
succeeding, the run finishes with
`stages_completed = [query_analysis, web_search, reasoning, citation,
output_generation]`, which is not a prefix of the canonical stage order —
the claim's "regardless of whether claim verification is enabled or
disabled … no gaps" is false on the code. -/
theorem stages_order_counterexample :
    (research initState "q" "t" false envAllOk).finalSession.progress.stages_completed =
      [.query_analysis, .web_search, .reasoning, .citation, .output_generation]
    ∧ ((research initState "q" "t" false
        envAllOk).finalSession.progress.stages_completed).isPrefixOf
        canonicalStageOrder = false := by
  decide

/-- C4 (amended): at every observable point of a research run,
`progress.stages_completed` is a prefix (no gaps, no reorderings) of the
stage order actually executed: the canonical order when verification is
enabled, the canonical order with `verification` removed when it is
disabled. -/
theorem stages_completed_follow_order (st : OrchState) (query now : String)
    (vc : Bool) (env : StageEnv) :
    ((research st query now vc env).trace.all
      (fun p => p.stages_completed.isPrefixOf (expectedStageOrder vc))) = true
    ∧ ((research st query now vc
        env).finalSession.progress.stages_completed).isPrefixOf
        (expectedStageOrder vc) = true := by
  cases vc with
  | «false» =>
      rcases hqa : env.analyze with e1 | qa
      · simp [research, runPipelineT, runStageT, run_stage, stageEntry,
          analyze_query, search_web, reason, verify, generate_citations,
          generate_output, finishResearch, create_session,
          ResearchProgress.complete_stage, expectedStageOrder,
          canonicalStageOrder, List.isPrefixOf, hqa]
      · rcases hsr : env.search with e2 | ⟨results, sources⟩
        · simp [research, runPipelineT, runStageT, run_stage, stageEntry,
          analyze_query, search_web, reason, verify, generate_citations,
          generate_output, finishResearch, create_session,
          ResearchProgress.complete_stage, expectedStageOrder,
          canonicalStageOrder, List.isPrefixOf, hqa, hsr]
        · rcases sources with _ | ⟨s0, srest⟩
          · simp [research, runPipelineT, runStageT, run_stage, stageEntry,
          analyze_query, search_web, reason, verify, generate_citations,
          generate_output, finishResearch, create_session,
          ResearchProgress.complete_stage, expectedStageOrder,
          canonicalStageOrder, List.isPrefixOf, hqa, hsr]
          · rcases hre : env.reason with e3 | syn
            · simp [research, runPipelineT, runStageT, run_stage, stageEntry,
          analyze_query, search_web, reason, verify, generate_citations,
          generate_output, finishResearch, create_session,
          ResearchProgress.complete_stage, expectedStageOrder,
          canonicalStageOrder, List.isPrefixOf, hqa, hsr, hre]
            · rcases hc : env.cite with e5 | c
              · simp [research, runPipelineT, runStageT, run_stage, stageEntry,
          analyze_query, search_web, reason, verify, generate_citations,
          generate_output, finishResearch, create_session,
          ResearchProgress.complete_stage, expectedStageOrder,
          canonicalStageOrder, List.isPrefixOf, hqa, hsr, hre, hc]
              · rcases ho : env.output with e6 | ⟨rep, summ⟩
                · simp [research, runPipelineT, runStageT, run_stage, stageEntry,
          analyze_query, search_web, reason, verify, generate_citations,
          generate_output, finishResearch, create_session,
          ResearchProgress.complete_stage, expectedStageOrder,
          canonicalStageOrder, List.isPrefixOf, hqa, hsr, hre, hc, ho]
                · simp [research, runPipelineT, runStageT, run_stage, stageEntry,
          analyze_query, search_web, reason, verify, generate_citations,
          generate_output, finishResearch, create_session,
          ResearchProgress.complete_stage, expectedStageOrder,
          canonicalStageOrder, List.isPrefixOf, hqa, hsr, hre, hc, ho]
  | «true» =>
      rcases hqa : env.analyze with e1 | qa
      · simp [research, runPipelineT, runStageT, run_stage, stageEntry,
          analyze_query, search_web, reason, verify, generate_citations,
          generate_output, finishResearch, create_session,
          ResearchProgress.complete_stage, expectedStageOrder,
          canonicalStageOrder, List.isPrefixOf, hqa]
      · rcases hsr : env.search with e2 | ⟨results, sources⟩
        · simp [research, runPipelineT, runStageT, run_stage, stageEntry,
          analyze_query, search_web, reason, verify, generate_citations,
          generate_output, finishResearch, create_session,
          ResearchProgress.complete_stage, expectedStageOrder,
          canonicalStageOrder, List.isPrefixOf, hqa, hsr]
        · rcases sources with _ | ⟨s0, srest⟩
          · simp [research, runPipelineT, runStageT, run_stage, stageEntry,
          analyze_query, search_web, reason, verify, generate_citations,
          generate_output, finishResearch, create_session,
          ResearchProgress.complete_stage, expectedStageOrder,
          canonicalStageOrder, List.isPrefixOf, hqa, hsr]
          · rcases hre : env.reason with e3 | syn
            · simp [research, runPipelineT, runStageT, run_stage, stageEntry,
          analyze_query, search_web, reason, verify, generate_citations,
          generate_output, finishResearch, create_session,
          ResearchProgress.complete_stage, expectedStageOrder,
          canonicalStageOrder, List.isPrefixOf, hqa, hsr, hre]
            · rcases hv : env.verify with e4 | v
              · simp [research, runPipelineT, runStageT, run_stage, stageEntry,
          analyze_query, search_web, reason, verify, generate_citations,
          generate_output, finishResearch, create_session,
          ResearchProgress.complete_stage, expectedStageOrder,
          canonicalStageOrder, List.isPrefixOf, hqa, hsr, hre, hv]
              · rcases hc : env.cite with e5 | c
                · simp [research, runPipelineT, runStageT, run_stage, stageEntry,
          analyze_query, search_web, reason, verify, generate_citations,
          generate_output, finishResearch, create_session,
          ResearchProgress.complete_stage, expectedStageOrder,
          canonicalStageOrder, List.isPrefixOf, hqa, hsr, hre, hv, hc]
                · rcases ho : env.output with e6 | ⟨rep, summ⟩
                  · simp [research, runPipelineT, runStageT, run_stage, stageEntry,
          analyze_query, search_web, reason, verify, generate_citations,
          generate_output, finishResearch, create_session,
          ResearchProgress.complete_stage, expectedStageOrder,
          canonicalStageOrder, List.isPrefixOf, hqa, hsr, hre, hv, hc, ho]
                  · simp [research, runPipelineT, runStageT, run_stage, stageEntry,
          analyze_query, search_web, reason, verify, generate_citations,
          generate_output, finishResearch, create_session,
          ResearchProgress.complete_stage, expectedStageOrder,
          canonicalStageOrder, List.isPrefixOf, hqa, hsr, hre, hv, hc, ho]

/-- C6: within one session's run, `progress_percentage` (completed-stage
count divided by `len(ResearchStage) - 1`, times 100) is monotonically
non-decreasing across the observable states of the run, and it equals 100
only in states whose `current_stage` is `complete`. -/
theorem progress_percentage_monotone (st : OrchState) (query now : String)
    (vc : Bool) (env : StageEnv) :
    List.Chain' (fun a b => a ≤ b)
      ((research st query now vc env).trace.map
        ResearchProgress.progress_percentage)
    ∧ ∀ p ∈ (research st query now vc env).trace,
        p.progress_percentage = 100 →
          p.current_stage = ResearchStage.complete := by
  cases vc with
  | «false» =>
      rcases hqa : env.analyze with e1 | qa
      · simp [research, runPipelineT, runStageT, run_stage, stageEntry,
          analyze_query, search_web, reason, verify, generate_citations,
          generate_output, finishResearch, create_session,
          ResearchProgress.complete_stage, ResearchProgress.progress_percentage,
          researchStageCount, List.chain'_cons, hqa] <;> norm_num
      · rcases hsr : env.search with e2 | ⟨results, sources⟩
        · simp [research, runPipelineT, runStageT, run_stage, stageEntry,
          analyze_query, search_web, reason, verify, generate_citations,
          generate_output, finishResearch, create_session,
          ResearchProgress.complete_stage, ResearchProgress.progress_percentage,
          researchStageCount, List.chain'_cons, hqa, hsr] <;> norm_num
        · rcases sources with _ | ⟨s0, srest⟩
          · simp [research, runPipelineT, runStageT, run_stage, stageEntry,
          analyze_query, search_web, reason, verify, generate_citations,
          generate_output, finishResearch, create_session,
          ResearchProgress.complete_stage, ResearchProgress.progress_percentage,
          researchStageCount, List.chain'_cons, hqa, hsr] <;> norm_num
          · rcases hre : env.reason with e3 | syn
            · simp [research, runPipelineT, runStageT, run_stage, stageEntry,
          analyze_query, search_web, reason, verify, generate_citations,
          generate_output, finishResearch, create_session,
          ResearchProgress.complete_stage, ResearchProgress.progress_percentage,
          researchStageCount, List.chain'_cons, hqa, hsr, hre] <;> norm_num
            · rcases hc : env.cite with e5 | c
              · simp [research, runPipelineT, runStageT, run_stage, stageEntry,
          analyze_query, search_web, reason, verify, generate_citations,
          generate_output, finishResearch, create_session,
          ResearchProgress.complete_stage, ResearchProgress.progress_percentage,
          researchStageCount, List.chain'_cons, hqa, hsr, hre, hc] <;> norm_num
              · rcases ho : env.output with e6 | ⟨rep, summ⟩
                · simp [research, runPipelineT, runStageT, run_stage, stageEntry,
          analyze_query, search_web, reason, verify, generate_citations,
          generate_output, finishResearch, create_session,
          ResearchProgress.complete_stage, ResearchProgress.progress_percentage,
          researchStageCount, List.chain'_cons, hqa, hsr, hre, hc, ho] <;> norm_num
                · simp [research, runPipelineT, runStageT, run_stage, stageEntry,
          analyze_query, search_web, reason, verify, generate_citations,
          generate_output, finishResearch, create_session,
          ResearchProgress.complete_stage, ResearchProgress.progress_percentage,
          researchStageCount, List.chain'_cons, hqa, hsr, hre, hc, ho] <;> norm_num
  | «true» =>
      rcases hqa : env.analyze with e1 | qa
      · simp [research, runPipelineT, runStageT, run_stage, stageEntry,
          analyze_query, search_web, reason, verify, generate_citations,
          generate_output, finishResearch, create_session,
          ResearchProgress.complete_stage, ResearchProgress.progress_percentage,
          researchStageCount, List.chain'_cons, hqa] <;> norm_num
      · rcases hsr : env.search with e2 | ⟨results, sources⟩
        · simp [research, runPipelineT, runStageT, run_stage, stageEntry,
          analyze_query, search_web, reason, verify, generate_citations,
          generate_output, finishResearch, create_session,
          ResearchProgress.complete_stage, ResearchProgress.progress_percentage,
          researchStageCount, List.chain'_cons, hqa, hsr] <;> norm_num
        · rcases sources with _ | ⟨s0, srest⟩
          · simp [research, runPipelineT, runStageT, run_stage, stageEntry,
          analyze_query, search_web, reason, verify, generate_citations,
          generate_output, finishResearch, create_session,
          ResearchProgress.complete_stage, ResearchProgress.progress_percentage,
          researchStageCount, List.chain'_cons, hqa, hsr] <;> norm_num
          · rcases hre : env.reason with e3 | syn
            · simp [research, runPipelineT, runStageT, run_stage, stageEntry,
          analyze_query, search_web, reason, verify, generate_citations,
          generate_output, finishResearch, create_session,
          ResearchProgress.complete_stage, ResearchProgress.progress_percentage,
          researchStageCount, List.chain'_cons, hqa, hsr, hre] <;> norm_num
            · rcases hv : env.verify with e4 | v
              · simp [research, runPipelineT, runStageT, run_stage, stageEntry,
          analyze_query, search_web, reason, verify, generate_citations,
          generate_output, finishResearch, create_session,
          ResearchProgress.complete_stage, ResearchProgress.progress_percentage,
          researchStageCount, List.chain'_cons, hqa, hsr, hre, hv] <;> norm_num
              · rcases hc : env.cite with e5 | c
                · simp [research, runPipelineT, runStageT, run_stage, stageEntry,
          analyze_query, search_web, reason, verify, generate_citations,
          generate_output, finishResearch, create_session,
          ResearchProgress.complete_stage, ResearchProgress.progress_percentage,
          researchStageCount, List.chain'_cons, hqa, hsr, hre, hv, hc] <;> norm_num
                · rcases ho : env.output with e6 | ⟨rep, summ⟩
                  · simp [research, runPipelineT, runStageT, run_stage, stageEntry,
          analyze_query, search_web, reason, verify, generate_citations,
          generate_output, finishResearch, create_session,
          ResearchProgress.complete_stage, ResearchProgress.progress_percentage,
          researchStageCount, List.chain'_cons, hqa, hsr, hre, hv, hc, ho] <;> norm_num
                  · simp [research, runPipelineT, runStageT, run_stage, stageEntry,
          analyze_query, search_web, reason, verify, generate_citations,
          generate_output, finishResearch, create_session,
          ResearchProgress.complete_stage, ResearchProgress.progress_percentage,
          researchStageCount, List.chain'_cons, hqa, hsr, hre, hv, hc, ho] <;> norm_num

/-- Witness for `progress_percentage_monotone`: in the all-successful run
with verification enabled, the final observable state has percentage 100 and
its `current_stage` is indeed `complete`. -/
theorem progress_percentage_monotone_witness :
    (research initState "q" "t" true envAllOk).finalSession.progress.current_stage =
      ResearchStage.complete :=
  (progress_percentage_monotone initState "q" "t" true envAllOk).2
    (research initState "q" "t" true envAllOk).finalSession.progress
    (by decide)
    (by norm_num [research, runPipelineT, runStageT, run_stage, stageEntry,
      analyze_query, search_web, reason, verify, generate_citations,
      generate_output, finishResearch, create_session, envAllOk, initState,
      ResearchProgress.complete_stage, ResearchProgress.progress_percentage,
      researchStageCount])

end DeepResearch
